import Mathlib

/-!
Shallow embedding of the Williams Treaty Territories data-pipeline repository
(Python scripts under `scripts/` and the Flask server `web/server.py`).

Geometry payloads are represented symbolically: the repository performs no
geometry arithmetic of its own — it calls geopandas/rasterio — so a geometry
value records which library operations were applied, in which order and in
which coordinate reference systems.  Coordinate reference systems (CRS) are
modelled by their canonical string (e.g. "EPSG:4326"); a GeoDataFrame's CRS is
optional, as in geopandas.
-/

/-- Resampling methods used by the repository's raster reprojection calls
(`rasterio.warp.Resampling`). -/
inductive Resampling where
  | nearest
  | bilinear
deriving DecidableEq, Repr

/-- Symbolic geometry payload: a trace of the geopandas/rasterio operations
applied to the original data. -/
inductive Geom where
  /-- Geometries as read from an input file (identified by an arbitrary tag). -/
  | source (id : Nat)
  /-- `rasterio.merge.merge` of several rasters' grids. -/
  | merged (gs : List Geom)
  /-- `to_crs` / `rasterio.warp.reproject` without resampling choice:
  vector reprojection from CRS `src` to CRS `tgt`. -/
  | reprojected (g : Geom) (src : Option String) (tgt : String)
  /-- `GeoSeries.buffer dist` (metres, per the source's convention). -/
  | buffered (g : Geom) (dist : Int)
  /-- `geopandas.clip` / `rasterio.mask.mask`: `g` clipped by mask `m`. -/
  | clipped (g : Geom) (m : Geom)
  /-- Raster warp with an explicit resampling method, from CRS `src` to `tgt`. -/
  | resampled (g : Geom) (src : String) (tgt : String) (method : Resampling)

/-- A geopandas GeoDataFrame: an optional CRS and a (symbolic) geometry column. -/
structure GDF where
  crs : Option String
  geom : Geom

/-- A rasterio dataset: an optional CRS and a (symbolic) pixel grid. -/
structure Raster where
  crs : Option String
  grid : Geom

/-- `GeoDataFrame.to_crs(target)` where `target` may be `None` (as when the
code passes another frame's missing CRS): geopandas raises on a frame with no
CRS, and raises when no target CRS is supplied. -/
def gdf_to_crs (g : GDF) (target : Option String) : Except String GDF :=
  match g.crs, target with
  | none, _ => Except.error "Cannot transform naive geometries.  Please set a crs on the object first."
  | some _, none => Except.error "Must pass either crs or epsg."
  | some c, some t => Except.ok { crs := some t, geom := Geom.reprojected g.geom (some c) t }

/-- `clip_to_aoi` from `scripts/utils/common.py` (lines 86–113): when the CRSs
differ the AOI is converted with `aoi.to_crs(gdf.crs)`, the AOI is buffered
when `buffer_meters > 0`, and `gpd.clip(gdf, aoi_buffered)` is returned (the
result keeps `gdf`'s CRS). -/
def clip_to_aoi (gdf : GDF) (aoi : GDF) (buffer_meters : Int) : Except String GDF := do
  let aoi ← if gdf.crs ≠ aoi.crs then gdf_to_crs aoi gdf.crs else Except.ok aoi
  let aoi_buffered := if 0 < buffer_meters then { aoi with geom := Geom.buffered aoi.geom buffer_meters } else aoi
  Except.ok { crs := gdf.crs, geom := Geom.clipped gdf.geom aoi_buffered.geom }

/-- `reproject_gdf` from `scripts/utils/common.py` (lines 116–124): raises
`ValueError` when the input has no CRS; calls `to_crs` when the CRS string
differs from the target; returns the input itself otherwise. -/
def reproject_gdf (gdf : GDF) (target_crs : String) : Except String GDF :=
  match gdf.crs with
  | none => Except.error "Input GeoDataFrame has no CRS defined"
  | some c => if c ≠ target_crs then gdf_to_crs gdf (some target_crs) else Except.ok gdf

/-- `clip_raster` from `scripts/filters/clip_fuel_types.py` (lines 36–84): the
AOI is converted with `aoi.to_crs(src.crs)` (unconditionally), then
`rasterio.mask.mask(src, geoms, crop=True, ...)` is applied; the saved output
keeps the source raster's CRS: the raster itself is not reprojected here. -/
def clip_raster (input : Raster) (aoi : GDF) : Except String Raster := do
  let aoi_reprojected ← gdf_to_crs aoi input.crs
  Except.ok { crs := input.crs, grid := Geom.clipped input.grid aoi_reprojected.geom }

/-- `reproject_to_wgs84` from `scripts/filters/clip_fuel_types.py` (lines
87–137): when the source raster already is `EPSG:4326` it returns `False`
without writing an output (modelled as `ok none`); otherwise it warps the
raster to `EPSG:4326` with `Resampling.nearest` (categorical data).  A raster
with no CRS makes `calculate_default_transform` raise. -/
def reproject_to_wgs84 (src : Raster) : Except String (Option Raster) :=
  if src.crs = some "EPSG:4326" then Except.ok none
  else
    match src.crs with
    | none => Except.error "CRSError: src_crs is required"
    | some c =>
      Except.ok (some { crs := some "EPSG:4326",
                        grid := Geom.resampled src.grid c "EPSG:4326" Resampling.nearest })

/-- The processing part of `main` in `scripts/filters/clip_fuel_types.py`
(lines 251–269): clip to a temporary file, then reproject to WGS84; when no
reprojection was needed the clipped temporary file itself is moved to the
output path. -/
def clip_fuel_pipeline (input : Raster) (aoi : GDF) : Except String Raster := do
  let clipped ← clip_raster input aoi
  let r ← reproject_to_wgs84 clipped
  match r with
  | some out => Except.ok out
  | none => Except.ok clipped

/-- `CDEM_FTP_BASE` from `scripts/download_real_cdem.py` (line 40). -/
def CDEM_FTP_BASE : String :=
  "https://ftp.maps.canada.ca/pub/elevation/dem_mne/highresolution_hauteresolution/dtm_mnt/"

/-- `s[:n]` python string slicing. -/
def strTake (s : String) (n : Nat) : String := String.mk (s.toList.take n)

/-- The tile URL computed inside `download_cdem_tile`
(`scripts/download_real_cdem.py`, line 97). -/
def cdem_tile_url (nts_code : String) : String :=
  CDEM_FTP_BASE ++ strTake nts_code 3 ++ "/" ++ String.mk (nts_code.toList.map Char.toLower) ++ "/"

/-- `get_nts_tiles_for_aoi` from `scripts/download_real_cdem.py` (lines
43–73): the returned NTS sheet list is hardcoded, whatever the AOI. -/
def get_nts_tiles_for_aoi (aoi : GDF) : List String := ["031D", "031C", "031E"]

/-- `download_cdem_tile` from `scripts/download_real_cdem.py` (lines 76–117):
it unconditionally raises `NotImplementedError`; no tile is ever downloaded by
the script. -/
def download_cdem_tile (nts_code : String) (output_dir : String) : Except String String :=
  Except.error ("Automatic download of CDEM tiles not implemented due to file size.\n" ++
    "Please manually download tiles from: " ++ cdem_tile_url nts_code ++ "\n" ++
    "Place .tif files in: " ++ output_dir)

/-- `merge_and_clip_tiles` from `scripts/download_real_cdem.py` (lines
140–256): raises when the tile list is empty; merges all tiles (the mosaic
keeps the first tile's CRS), reprojects the AOI to the mosaic's CRS
(`aoi.to_crs(src.crs)`), masks (clips) the mosaic with it, and finally, when
the mosaic CRS is not `EPSG:4326`, warps the clipped raster to `EPSG:4326`
with `Resampling.bilinear`; otherwise the clipped raster is written as is. -/
def merge_and_clip_tiles (tiles : List Raster) (aoi : GDF) : Except String Raster :=
  match tiles with
  | [] => Except.error "No tiles to merge"
  | t0 :: _ => do
    let mosaic : Raster := { crs := t0.crs, grid := Geom.merged (tiles.map Raster.grid) }
    let aoi_reprojected ← gdf_to_crs aoi mosaic.crs
    let clipped : Raster := { crs := mosaic.crs,
                              grid := Geom.clipped mosaic.grid aoi_reprojected.geom }
    if mosaic.crs ≠ some "EPSG:4326" then
      match mosaic.crs with
      | none => Except.error "CRSError: src_crs is required"
      | some c =>
        Except.ok { crs := some "EPSG:4326",
                    grid := Geom.resampled clipped.grid c "EPSG:4326" Resampling.bilinear }
    else
      Except.ok clipped

/-- The tile-processing decision of `main` in `scripts/download_real_cdem.py`
(lines 297–312): `main` never calls `download_cdem_tile` — it only prints
manual-download instructions — then scans the raw directory; with no tiles
found it exits without processing (modelled `ok none`), otherwise it runs
`merge_and_clip_tiles` on the tiles found. -/
def cdem_main (downloaded_tiles : List Raster) (aoi : GDF) : Except String (Option Raster) :=
  if downloaded_tiles.isEmpty then Except.ok none
  else (merge_and_clip_tiles downloaded_tiles aoi).map some

/-- A `requests` HTTP response, as far as `download_file` inspects it. -/
structure HttpResp where
  statusCode : Nat
  contentLength : Nat
  chunks : List Nat

/-- The effect environment of `download_file`'s `try` block: the outcome each
fallible library call would have (normal return, or a raised exception with
its message). -/
structure DownloadWorld where
  /-- `requests.get(url, stream=True, timeout=timeout)`: may raise connection
  or timeout errors. -/
  getResult : Except String HttpResp
  /-- `ensure_dir(output_path.parent)`: `Path.mkdir` may raise. -/
  mkdirResult : Except String Unit
  /-- `open(output_path, 'wb')`: may raise. -/
  openResult : Except String Unit
  /-- The chunk-writing loop: first failing `f.write`, if any. -/
  writeResult : Except String Unit

/-- `Response.raise_for_status`: raises `HTTPError` exactly when the status
code is a 4xx or 5xx. -/
def raise_for_status (r : HttpResp) : Except String Unit :=
  if 400 ≤ r.statusCode ∧ r.statusCode < 600 then
    Except.error ("HTTPError: " ++ toString r.statusCode)
  else Except.ok ()

/-- The body of the `try` block of `download_file` in
`scripts/utils/common.py` (lines 63–79), ending in `return True`. -/
def download_file_try (w : DownloadWorld) : Except String Bool := do
  let resp ← w.getResult
  raise_for_status resp
  w.mkdirResult
  w.openResult
  w.writeResult
  Except.ok true

/-- `download_file` from `scripts/utils/common.py` (lines 48–83): the whole
body sits in `try: ... return True / except Exception: log; return False`.  A
result `Except.error` would model an exception propagating to the caller. -/
def download_file (w : DownloadWorld) : Except String Bool :=
  match download_file_try w with
  | Except.ok b => Except.ok b
  | Except.error _ => Except.ok false

/-- `str.lower()` (the strings involved are ASCII). -/
def strToLower (s : String) : String := String.mk (s.toList.map Char.toLower)

/-- `Path.suffix` of Python's `pathlib`, applied to a POSIX path with no
trailing slash: the last dot-suffix of the final path component, empty when
the component has no dot, starts with its only dot, or ends with the dot. -/
def pathSuffix (p : String) : String :=
  let name := (p.toList.reverse.takeWhile (fun c => c ≠ '/')).reverse
  match ((List.range name.length).filter (fun i => name.get? i = some '.')).getLast? with
  | some i => if 0 < i ∧ i < name.length - 1 then String.mk (name.drop i) else ""
  | none => ""

/-- The `mime_types` dictionary of `serve_local_file`
(`web/server.py`, lines 294–302). -/
def mime_types : List (String × String) :=
  [(".geojson", "application/geo+json"), (".json", "application/json"),
   (".tif", "image/tiff"), (".tiff", "image/tiff"), (".png", "image/png"),
   (".jpg", "image/jpeg"), (".jpeg", "image/jpeg")]

/-- A file response assembled by `serve_local_file`: the path served, the MIME
type chosen, and whether the no-cache headers were added. -/
structure ServedFile where
  path : String
  mimeType : String
  noCache : Bool
deriving DecidableEq, Repr

/-- `serve_local_file` from `web/server.py` (lines 291–316): MIME type from
the lowercased extension via `mime_types` (default
`application/octet-stream`), and cache-disabling headers for `.tif`/`.tiff`. -/
def serve_local_file (file_path : String) : ServedFile :=
  let file_ext := strToLower (pathSuffix file_path)
  { path := file_path,
    mimeType := (mime_types.lookup file_ext).getD "application/octet-stream",
    noCache := file_ext == ".tif" || file_ext == ".tiff" }

/-- A response of the `/data/<filepath>` route. -/
inductive DataResponse where
  | fileResponse (f : ServedFile)
  | redirect (code : Nat) (url : String)
  | jsonError (code : Nat) (message : String)
deriving DecidableEq, Repr

/-- The server's data-source state, as computed at startup in `web/server.py`
(lines 195–200): mode, remote URL (empty string when not configured), fallback
priority list, plus the set of files existing under `DATA_DIR` (modelled as a
list of relative paths) and the `DATA_DIR` prefix itself. -/
structure ServerState where
  mode : String
  remoteUrl : String
  fallbackPriority : List String
  localFiles : List String
  dataDir : String

/-- `urllib.parse.urljoin base rel` in the shape the server uses it: `base`
ends in `/` and `rel` is the relative path captured by Flask's `path`
converter (no scheme, no leading slash), so the join is concatenation. -/
def urljoin_rel (base rel : String) : String := base ++ rel

/-- The `hybrid` branch of `serve_data` (`web/server.py`, lines 263–278): walk
`fallback_priority`; a `local` entry answers only when the file exists, a
`remote` entry answers with an unconditional 302 redirect provided a remote
URL is configured; when the walk falls through, a 404 JSON error. -/
def serve_data_hybrid (st : ServerState) (filepath : String) : List String → DataResponse
  | [] => DataResponse.jsonError 404 "File not found in any configured source"
  | s :: rest =>
    if s = "local" then
      if st.localFiles.contains filepath then
        DataResponse.fileResponse (serve_local_file (st.dataDir ++ "/" ++ filepath))
      else serve_data_hybrid st filepath rest
    else if s = "remote" ∧ st.remoteUrl ≠ "" then
      DataResponse.redirect 302 (urljoin_rel (st.remoteUrl ++ "/") filepath)
    else serve_data_hybrid st filepath rest

/-- `serve_data` from `web/server.py` (lines 241–288): `remote` mode redirects
(or 500s without a remote URL), `hybrid` walks the priority list, and any other
mode (the `local` default) serves the local file or 404s. -/
def serve_data (st : ServerState) (filepath : String) : DataResponse :=
  if st.mode = "remote" then
    if st.remoteUrl ≠ "" then
      DataResponse.redirect 302 (urljoin_rel (st.remoteUrl ++ "/") filepath)
    else DataResponse.jsonError 500 "Remote mode configured but no remote_url set"
  else if st.mode = "hybrid" then
    serve_data_hybrid st filepath st.fallbackPriority
  else
    if st.localFiles.contains filepath then
      DataResponse.fileResponse (serve_local_file (st.dataDir ++ "/" ++ filepath))
    else DataResponse.jsonError 404 "File not found"

/-- Outcome of a request to a route wrapped in `requires_auth`. -/
inductive RouteResult where
  | handlerRuns
  | unauthorized (status : Nat) (wwwAuthenticate : String)
deriving DecidableEq, Repr

/-- `BASIC_AUTH_ENABLED = bool(os.getenv('BASIC_AUTH_PASSWORD'))`
(`web/server.py`, line 40): false when the variable is unset, and also when it
is set to the empty string. -/
def basic_auth_enabled (envPassword : Option String) : Bool :=
  match envPassword with
  | none => false
  | some s => !(s == "")

/-- `check_auth` from `web/server.py` (lines 44–46): only the password is
compared with `BASIC_AUTH_PASSWORD = os.getenv('BASIC_AUTH_PASSWORD', '')`;
the username is ignored. -/
def check_auth (envPassword : Option String) (username password : String) : Bool :=
  password == envPassword.getD ""

/-- `authenticate()` from `web/server.py` (lines 49–55): a 401 response with a
`WWW-Authenticate: Basic` challenge. -/
def authenticate_response : RouteResult :=
  RouteResult.unauthorized 401 "Basic realm=\"Williams Treaty Map - Password Required\""

/-- `requires_auth` from `web/server.py` (lines 58–70), applied to a request
whose parsed Basic credentials are `creds` (`none` when the request carries no
parseable `Authorization` header). -/
def requires_auth (envPassword : Option String) (creds : Option (String × String)) : RouteResult :=
  if basic_auth_enabled envPassword = false then RouteResult.handlerRuns
  else
    match creds with
    | none => authenticate_response
    | some (u, p) =>
      if check_auth envPassword u p then RouteResult.handlerRuns else authenticate_response

/-- A value stored in a fire record's attribute column, discriminated the way
`extract_year` does: missing (`pd.isna`), numeric (`int`/`float`, carrying its
integer part), string, an object with a `.year` attribute (dates), or any
other object. -/
inductive FireVal where
  | na
  | num (n : Int)
  | str (s : String)
  | datetime (year : Int)
  | other
deriving DecidableEq, Repr

/-- A match of the regex `(19|20)\d{2}` starting at the head of the list. -/
def yearAt : List Char → Option Int
  | c1 :: c2 :: c3 :: c4 :: _ =>
    if ((c1 = '1' ∧ c2 = '9') ∨ (c1 = '2' ∧ c2 = '0')) ∧ c3.isDigit ∧ c4.isDigit then
      some (((c1.toNat - 48) * 1000 + (c2.toNat - 48) * 100 +
             (c3.toNat - 48) * 10 + (c4.toNat - 48) : Nat) : Int)
    else none
  | _ => none

/-- `re.search(r'(19|20)\d{2}', s)`: the leftmost match of the pattern. -/
def searchYear : List Char → Option Int
  | [] => none
  | c :: rest =>
    match yearAt (c :: rest) with
    | some y => some y
    | none => searchYear rest

/-- `extract_year` from `scripts/filters/filter_fire_perimeters.py` (lines
72–104): missing → `None`; numbers → the year when within 1900–2100, else
`None`; strings → the first embedded 4-digit year starting `19` or `20`
(falling through to `None` when there is none); date-like objects → their
`.year`; anything else → `None`. -/
def extract_year : FireVal → Option Int
  | FireVal.na => none
  | FireVal.num n => if 1900 ≤ n ∧ n ≤ 2100 then some n else none
  | FireVal.str s => searchYear s.toList
  | FireVal.datetime y => some y
  | FireVal.other => none

/-- Geometry bounds of one record, in the frame's current CRS. -/
structure Rect where
  minx : Int
  miny : Int
  maxx : Int
  maxy : Int
deriving DecidableEq, Repr

/-- The `BBOX` dictionary of `scripts/filters/filter_fire_perimeters.py`
(lines 37–42): west/east/south/north bounds. -/
structure BBoxDict where
  west : Int
  east : Int
  south : Int
  north : Int
deriving DecidableEq, Repr

/-- One fire record: its geometry bounds plus attribute columns. -/
structure FireRec where
  bounds : Rect
  attrs : List (String × FireVal)
deriving DecidableEq, Repr

/-- A GeoDataFrame of fire records. -/
structure FireGDF where
  crs : Option String
  rows : List FireRec
deriving DecidableEq, Repr

/-- The library's coordinate reprojection acting on a record's bounds (from an
optional source CRS to a target CRS).  The repository never computes this
itself, so the theorems hold for an arbitrary transform. -/
abbrev CoordTransform := Option String → String → Rect → Rect

/-- `GeoDataFrame.to_crs(target)` on a fire frame: raises on a frame with no
CRS; otherwise retags the CRS and maps the transform over every record. -/
def fire_to_crs (T : CoordTransform) (g : FireGDF) (target : String) : Except String FireGDF :=
  match g.crs with
  | none => Except.error "Cannot transform naive geometries.  Please set a crs on the object first."
  | some _ =>
    Except.ok { crs := some target,
                rows := g.rows.map (fun r => { r with bounds := T g.crs target r.bounds }) }

/-- `gdf.cx[west:east, south:north]` keeps the records whose bounds intersect
the box (boundary included). -/
def cx_keep (bbox : BBoxDict) (r : FireRec) : Bool :=
  decide (r.bounds.minx ≤ bbox.east ∧ bbox.west ≤ r.bounds.maxx ∧
          r.bounds.miny ≤ bbox.north ∧ bbox.south ≤ r.bounds.maxy)

/-- Column access `r[field]` (the callers guarantee the column exists; a
missing column is modelled as a missing value). -/
def getAttr (r : FireRec) (field : String) : FireVal :=
  (r.attrs.lookup field).getD FireVal.na

/-- The assignment `bbox_filtered['YEAR'] = years`: store the extracted year
(a number, or missing) under the column `YEAR` of one record. -/
def withYearAttr (yf : String) (r : FireRec) : FireRec :=
  { r with attrs := ("YEAR", match extract_year (getAttr r yf) with
      | some y => FireVal.num y
      | none => FireVal.na) :: r.attrs }

/-- `years >= start_year` under pandas semantics: a missing year compares
false. -/
def optGE (y : Option Int) (k : Int) : Bool :=
  match y with
  | none => false
  | some v => decide (k ≤ v)

/-- `years <= end_year` under pandas semantics: a missing year compares
false. -/
def optLE (y : Option Int) (k : Int) : Bool :=
  match y with
  | none => false
  | some v => decide (v ≤ k)

/-- `filter_fires` from `scripts/filters/filter_fire_perimeters.py` (lines
107–169): reproject to `EPSG:4326` when needed, apply the bounding-box filter,
return it directly when empty; then, when a year field exists, mask by
`(years >= start_year) & (years <= end_year)` where `years` applies
`extract_year` to the year column (the records selected carry the extracted
`YEAR` column); without a year field the bounding-box result is returned. -/
def filter_fires (T : CoordTransform) (gdf : FireGDF) (year_field : Option String)
    (bbox : BBoxDict) (start_year end_year : Int) : Except String FireGDF := do
  let gdf ← if gdf.crs ≠ some "EPSG:4326" then fire_to_crs T gdf "EPSG:4326" else Except.ok gdf
  let bbox_filtered : FireGDF := { crs := gdf.crs, rows := gdf.rows.filter (cx_keep bbox) }
  if bbox_filtered.rows.isEmpty then Except.ok bbox_filtered
  else
    match year_field with
    | some yf =>
      let keep (r : FireRec) : Bool :=
        optGE (extract_year (getAttr r yf)) start_year &&
        optLE (extract_year (getAttr r yf)) end_year
      Except.ok { crs := bbox_filtered.crs,
                  rows := (bbox_filtered.rows.filter keep).map (withYearAttr yf) }
    | none => Except.ok bbox_filtered

/-- The final web-output step of `main` in
`scripts/filters/filter_fire_perimeters.py` (lines 337–341): reproject the
filtered frame to `EPSG:4326` only when it is not already there, then save. -/
def fire_main_save (T : CoordTransform) (filtered : FireGDF) : Except String FireGDF :=
  if filtered.crs ≠ some "EPSG:4326" then fire_to_crs T filtered "EPSG:4326"
  else Except.ok filtered

/-- A download world in which every step succeeds. -/
def dlWorldOk : DownloadWorld :=
  { getResult := Except.ok { statusCode := 200, contentLength := 8192, chunks := [8192] },
    mkdirResult := Except.ok (), openResult := Except.ok (), writeResult := Except.ok () }

/-- A download world in which the HTTP request raises a connection error. -/
def dlWorldErr : DownloadWorld :=
  { getResult := Except.error "ConnectionError", mkdirResult := Except.ok (),
    openResult := Except.ok (), writeResult := Except.ok () }

/-- A concrete remote-mode server state. -/
def remoteStateEx : ServerState :=
  { mode := "remote", remoteUrl := "https://bucket.example.com/wt-data",
    fallbackPriority := ["local", "remote"], localFiles := [], dataDir := "data" }

/-- A concrete local-mode server state with one existing file. -/
def localStateEx : ServerState :=
  { mode := "local", remoteUrl := "", fallbackPriority := ["local", "remote"],
    localFiles := ["processed/dem/elevation.tif"], dataDir := "data" }

/-- The hybrid-mode behaviour in the words of the claim: the first source
listed in `fallback_priority` able to answer — `local` exactly when the file
exists locally, `remote` exactly when a remote URL is configured (remote file
existence is never checked) — determines the response.  Written from the
claim, to be compared with `serve_data`. -/
def hybrid_first_responder (st : ServerState) (filepath : String) : Option String :=
  st.fallbackPriority.find? (fun s =>
    (s == "local" && st.localFiles.contains filepath)
    || (s == "remote" && !(st.remoteUrl == "")))

/-- A concrete hybrid-mode server state. -/
def hybridStateEx : ServerState :=
  { mode := "hybrid", remoteUrl := "https://r.example.org/d",
    fallbackPriority := ["local", "remote"], localFiles := ["a.geojson"], dataDir := "data" }

/-- Three concrete fire records: one in the bounding box with a parseable
date string, one in the box with a numeric year outside 1900–2100, one
outside the box. -/
def fireEx : FireGDF :=
  { crs := some "EPSG:4326",
    rows := [
      { bounds := { minx := -79, miny := 44, maxx := -78, maxy := 45 },
        attrs := [("YEAR", FireVal.str "2015-06-01")] },
      { bounds := { minx := -79, miny := 44, maxx := -78, maxy := 45 },
        attrs := [("YEAR", FireVal.num 1800)] },
      { bounds := { minx := -70, miny := 50, maxx := -69, maxy := 51 },
        attrs := [("YEAR", FireVal.num 2020)] }] }

/-- The `BBOX` of the fire filter script, as integers. -/
def bboxEx : BBoxDict := { west := -80, east := -78, south := 44, north := 45 }

/-! ## General lemmas about the embedded operations -/

/-- Full characterization of `clip_to_aoi` when both CRSs are defined. -/
theorem clip_to_aoi_eq (gdf aoi : GDF) (b : Int) (cg ca : String)
    (hg : gdf.crs = some cg) (ha : aoi.crs = some ca) :
    clip_to_aoi gdf aoi b =
      Except.ok { crs := some cg,
                  geom := Geom.clipped gdf.geom
                    ((if 0 < b then fun g => Geom.buffered g b else id)
                      (if cg = ca then aoi.geom
                       else Geom.reprojected aoi.geom (some ca) cg)) } := by
  by_cases hc : cg = ca <;>
    by_cases hb : 0 < b <;>
      simp [clip_to_aoi, gdf_to_crs, hg, ha, hc, hb, Bind.bind, Except.bind]

/-- Full characterization of `clip_raster` when both CRSs are defined. -/
theorem clip_raster_eq (input : Raster) (aoi : GDF) (ci ca : String)
    (hi : input.crs = some ci) (ha : aoi.crs = some ca) :
    clip_raster input aoi =
      Except.ok { crs := some ci,
                  grid := Geom.clipped input.grid
                    (Geom.reprojected aoi.geom (some ca) ci) } := by
  simp [clip_raster, gdf_to_crs, hi, ha, Bind.bind, Except.bind]

/-- Full characterization of `merge_and_clip_tiles` on a nonempty tile list
with a defined AOI CRS. -/
theorem merge_and_clip_tiles_eq (t0 : Raster) (rest : List Raster) (aoi : GDF)
    (c0 ca : String) (h0 : t0.crs = some c0) (ha : aoi.crs = some ca) :
    merge_and_clip_tiles (t0 :: rest) aoi =
      Except.ok (if c0 = "EPSG:4326" then
        { crs := some c0,
          grid := Geom.clipped (Geom.merged ((t0 :: rest).map Raster.grid))
                    (Geom.reprojected aoi.geom (some ca) c0) }
      else
        { crs := some "EPSG:4326",
          grid := Geom.resampled
            (Geom.clipped (Geom.merged ((t0 :: rest).map Raster.grid))
              (Geom.reprojected aoi.geom (some ca) c0))
            c0 "EPSG:4326" Resampling.bilinear }) := by
  by_cases hc : c0 = "EPSG:4326" <;>
    simp [merge_and_clip_tiles, gdf_to_crs, h0, ha, hc, Bind.bind, Except.bind]

/-- Full characterization of `clip_fuel_pipeline` when both CRSs are
defined. -/
theorem clip_fuel_pipeline_eq (input : Raster) (aoi : GDF) (ci ca : String)
    (hi : input.crs = some ci) (ha : aoi.crs = some ca) :
    clip_fuel_pipeline input aoi =
      Except.ok (if ci = "EPSG:4326" then
        { crs := some ci,
          grid := Geom.clipped input.grid (Geom.reprojected aoi.geom (some ca) ci) }
      else
        { crs := some "EPSG:4326",
          grid := Geom.resampled
            (Geom.clipped input.grid (Geom.reprojected aoi.geom (some ca) ci))
            ci "EPSG:4326" Resampling.nearest }) := by
  by_cases hc : ci = "EPSG:4326" <;>
    simp [clip_fuel_pipeline, clip_raster, reproject_to_wgs84, gdf_to_crs, hi, ha, hc,
      Bind.bind, Except.bind]

/-! ## Claim theorems -/

/-- C9: `reproject_gdf` raises `ValueError` exactly when the input frame has
no CRS; when the input CRS string equals the target it returns the input
itself unchanged; otherwise it returns the frame reprojected (`to_crs`) to the
target CRS. -/
theorem reproject_gdf_spec (gdf : GDF) (t : String) :
    ((∃ e, reproject_gdf gdf t = Except.error e) ↔ gdf.crs = none) ∧
    (gdf.crs = some t → reproject_gdf gdf t = Except.ok gdf) ∧
    (∀ c, gdf.crs = some c → c ≠ t →
      reproject_gdf gdf t =
        Except.ok { crs := some t, geom := Geom.reprojected gdf.geom (some c) t }) := by
  refine ⟨?_, ?_, ?_⟩
  · cases h : gdf.crs with
    | none => simp [reproject_gdf, h]
    | some c =>
      by_cases hc : c = t <;> simp [reproject_gdf, gdf_to_crs, h, hc]
  · intro h
    simp [reproject_gdf, h]
  · intro c h hc
    simp [reproject_gdf, gdf_to_crs, h, hc]

/-- Witness for C9: concrete runs through each branch of the statement. -/
theorem reproject_gdf_spec_witness :
    reproject_gdf { crs := some "EPSG:3347", geom := Geom.source 0 } "EPSG:4326" =
      Except.ok { crs := some "EPSG:4326",
                  geom := Geom.reprojected (Geom.source 0) (some "EPSG:3347") "EPSG:4326" } ∧
    reproject_gdf { crs := some "EPSG:4326", geom := Geom.source 1 } "EPSG:4326" =
      Except.ok { crs := some "EPSG:4326", geom := Geom.source 1 } := by
  constructor
  · exact (reproject_gdf_spec { crs := some "EPSG:3347", geom := Geom.source 0 }
      "EPSG:4326").2.2 "EPSG:3347" rfl (by decide)
  · exact (reproject_gdf_spec { crs := some "EPSG:4326", geom := Geom.source 1 }
      "EPSG:4326").2.1 rfl

/-- The `try` body of `download_file` can only return `True` when it returns
at all. -/
theorem download_file_try_ok (w : DownloadWorld) (u : Bool)
    (hu : download_file_try w = Except.ok u) : u = true := by
  rw [download_file_try] at hu
  simp only [Bind.bind, Except.bind] at hu
  repeat' split at hu
  all_goals simp_all

/-- C6: `download_file` never lets an exception escape: for every outcome of
the fallible library calls it returns normally — `True` exactly when the
`try` body ran to completion, `False` when any step raised (the exception is
caught, logged and swallowed). -/
theorem download_file_no_propagation (w : DownloadWorld) :
    (∀ e, download_file w ≠ Except.error e) ∧
    ((∃ u, download_file_try w = Except.ok u) → download_file w = Except.ok true) ∧
    (∀ e, download_file_try w = Except.error e → download_file w = Except.ok false) := by
  refine ⟨?_, ?_, ?_⟩
  · intro e
    cases h : download_file_try w with
    | ok b => simp [download_file, h]
    | error e2 => simp [download_file, h]
  · rintro ⟨u, hu⟩
    have hut : u = true := download_file_try_ok w u hu
    subst hut
    simp [download_file, hu]
  · intro e he
    simp [download_file, he]

/-- Witness for C6: a completed download returns `True`; a raised connection
error is swallowed and returns `False`. -/
theorem download_file_no_propagation_witness :
    download_file dlWorldOk = Except.ok true ∧ download_file dlWorldErr = Except.ok false := by
  constructor
  · exact (download_file_no_propagation dlWorldOk).2.1 ⟨true, rfl⟩
  · exact (download_file_no_propagation dlWorldErr).2.2 "ConnectionError" rfl

/-- C3 counterexample: `BASIC_AUTH_PASSWORD` set to the empty string is a set
variable, and the request carries no Basic credentials, yet the route handler
runs — the code disables authentication for an empty password
(`bool('') == False`) instead of demanding matching credentials, and no 401
challenge is returned. -/
theorem requires_auth_empty_password_cex :
    requires_auth (some "") none = RouteResult.handlerRuns ∧
    requires_auth (some "") none ≠ authenticate_response := by
  decide

/-- C3 (amended): basic auth is optional and controlled by
`BASIC_AUTH_PASSWORD`: when the variable is unset **or set to the empty
string** every protected route handler runs with no check; when it is set to a
non-empty value, the handler runs exactly for requests whose Basic credentials
have a password equal to the variable (any username), and every other request
receives a 401 response carrying a `WWW-Authenticate: Basic` challenge. -/
theorem requires_auth_spec (envPassword : Option String) (creds : Option (String × String)) :
    ((envPassword = none ∨ envPassword = some "") →
      requires_auth envPassword creds = RouteResult.handlerRuns) ∧
    (∀ pw, envPassword = some pw → pw ≠ "" →
      (∀ u p, creds = some (u, p) → p = pw →
        requires_auth envPassword creds = RouteResult.handlerRuns) ∧
      (creds = none →
        requires_auth envPassword creds =
          RouteResult.unauthorized 401 "Basic realm=\"Williams Treaty Map - Password Required\"") ∧
      (∀ u p, creds = some (u, p) → p ≠ pw →
        requires_auth envPassword creds =
          RouteResult.unauthorized 401 "Basic realm=\"Williams Treaty Map - Password Required\"")) := by
  constructor
  · rintro (h | h) <;> simp [requires_auth, basic_auth_enabled, h]
  · intro pw hpw hne
    refine ⟨?_, ?_, ?_⟩
    · rintro u p hc rfl
      simp [requires_auth, basic_auth_enabled, check_auth, hpw, hc, hne]
    · intro hc
      simp [requires_auth, basic_auth_enabled, authenticate_response, hpw, hc, hne]
    · rintro u p hc hp
      simp [requires_auth, basic_auth_enabled, check_auth, authenticate_response,
        hpw, hc, hne, hp]

/-- Witness for C3 (amended): concrete runs through the unset, matching and
non-matching branches. -/
theorem requires_auth_spec_witness :
    requires_auth none none = RouteResult.handlerRuns ∧
    requires_auth (some "hunter2") (some ("anyuser", "hunter2")) = RouteResult.handlerRuns ∧
    requires_auth (some "hunter2") (some ("anyuser", "wrong")) =
      RouteResult.unauthorized 401 "Basic realm=\"Williams Treaty Map - Password Required\"" := by
  refine ⟨?_, ?_, ?_⟩
  · exact (requires_auth_spec none none).1 (Or.inl rfl)
  · exact ((requires_auth_spec (some "hunter2") (some ("anyuser", "hunter2"))).2
      "hunter2" rfl (by decide)).1 "anyuser" "hunter2" rfl rfl
  · exact ((requires_auth_spec (some "hunter2") (some ("anyuser", "wrong"))).2
      "hunter2" rfl (by decide)).2.2 "anyuser" "wrong" rfl (by decide)

/-- C4: in `remote` mode `serve_data` never consults the local file set; with
a remote URL configured it answers every request with a 302 redirect to the
remote URL, a trailing slash appended, joined with the requested path; with no
remote URL configured it answers with a 500 JSON error. -/
theorem serve_data_remote_spec (st : ServerState) (filepath : String)
    (hmode : st.mode = "remote") :
    (∀ files, serve_data { st with localFiles := files } filepath = serve_data st filepath) ∧
    (st.remoteUrl ≠ "" →
      serve_data st filepath =
        DataResponse.redirect 302 (urljoin_rel (st.remoteUrl ++ "/") filepath)) ∧
    (st.remoteUrl = "" →
      serve_data st filepath =
        DataResponse.jsonError 500 "Remote mode configured but no remote_url set") := by
  refine ⟨?_, ?_, ?_⟩
  · intro files
    simp [serve_data, hmode]
  · intro h
    simp [serve_data, hmode, h]
  · intro h
    simp [serve_data, hmode, h]

/-- Witness for C4: concrete redirect, and concrete 500 without a remote
URL. -/
theorem serve_data_remote_spec_witness :
    serve_data remoteStateEx "boundaries/williams_treaty_aoi.geojson" =
      DataResponse.redirect 302
        "https://bucket.example.com/wt-data/boundaries/williams_treaty_aoi.geojson" ∧
    serve_data { remoteStateEx with remoteUrl := "" } "boundaries/williams_treaty_aoi.geojson" =
      DataResponse.jsonError 500 "Remote mode configured but no remote_url set" := by
  constructor
  · exact (serve_data_remote_spec remoteStateEx "boundaries/williams_treaty_aoi.geojson"
      rfl).2.1 (by decide)
  · exact (serve_data_remote_spec { remoteStateEx with remoteUrl := "" }
      "boundaries/williams_treaty_aoi.geojson" rfl).2.2 rfl

/-- C7: in `local` mode `serve_data` answers a 404 JSON error exactly when the
file does not exist under the data directory, and otherwise serves the file,
whose MIME type follows its lowercased extension (`.geojson` →
`application/geo+json`, `.tif`/`.tiff` → `image/tiff`, extensions outside the
table → `application/octet-stream`) with the no-cache headers added exactly
for `.tif`/`.tiff`. -/
theorem serve_data_local_spec (st : ServerState) (filepath : String)
    (hmode : st.mode = "local") :
    (filepath ∉ st.localFiles →
      serve_data st filepath = DataResponse.jsonError 404 "File not found") ∧
    (filepath ∈ st.localFiles →
      serve_data st filepath =
        DataResponse.fileResponse (serve_local_file (st.dataDir ++ "/" ++ filepath))) ∧
    (∀ p, (strToLower (pathSuffix p) = ".geojson" →
            (serve_local_file p).mimeType = "application/geo+json") ∧
          (strToLower (pathSuffix p) = ".tif" ∨ strToLower (pathSuffix p) = ".tiff" →
            (serve_local_file p).mimeType = "image/tiff") ∧
          (mime_types.lookup (strToLower (pathSuffix p)) = none →
            (serve_local_file p).mimeType = "application/octet-stream") ∧
          ((serve_local_file p).noCache = true ↔
            strToLower (pathSuffix p) = ".tif" ∨ strToLower (pathSuffix p) = ".tiff")) := by
  refine ⟨?_, ?_, ?_⟩
  · intro h
    simp [serve_data, hmode, h]
  · intro h
    simp [serve_data, hmode, h]
  · intro p
    refine ⟨?_, ?_, ?_, ?_⟩
    · intro h
      simp only [serve_local_file]
      rw [h]
      rfl
    · rintro (h | h) <;> (simp only [serve_local_file]; rw [h]; rfl)
    · intro h
      simp only [serve_local_file]
      rw [h]
      rfl
    · simp only [serve_local_file, Bool.or_eq_true, beq_iff_eq]

/-- Witness for C7: a missing file yields the 404 JSON error; an existing
`.tif` is served as `image/tiff` with the no-cache headers. -/
theorem serve_data_local_spec_witness :
    serve_data localStateEx "missing.geojson" = DataResponse.jsonError 404 "File not found" ∧
    serve_data localStateEx "processed/dem/elevation.tif" =
      DataResponse.fileResponse
        { path := "data/processed/dem/elevation.tif", mimeType := "image/tiff",
          noCache := true } := by
  constructor
  · exact (serve_data_local_spec localStateEx "missing.geojson" rfl).1 (by decide)
  · have h := (serve_data_local_spec localStateEx "processed/dem/elevation.tif" rfl).2.1
      (by decide)
    rw [h]
    decide

/-- `serve_data_hybrid` walks the priority list exactly like
`List.find?` over the can-answer predicate. -/
theorem serve_data_hybrid_find (st : ServerState) (fp : String) (l : List String) :
    serve_data_hybrid st fp l =
      match l.find? (fun s =>
          (s == "local" && st.localFiles.contains fp)
          || (s == "remote" && !(st.remoteUrl == ""))) with
      | some s =>
        if s = "local" then
          DataResponse.fileResponse (serve_local_file (st.dataDir ++ "/" ++ fp))
        else DataResponse.redirect 302 (urljoin_rel (st.remoteUrl ++ "/") fp)
      | none => DataResponse.jsonError 404 "File not found in any configured source" := by
  induction l with
  | nil => simp [serve_data_hybrid]
  | cons s rest ih =>
    by_cases hl : s = "local"
    · subst hl
      by_cases hex : fp ∈ st.localFiles <;>
        simp +decide [serve_data_hybrid, List.find?, hex, ih, beq_iff_eq]
    · by_cases hr : s = "remote"
      · subst hr
        by_cases hu : st.remoteUrl = ""
        · simp +decide [serve_data_hybrid, List.find?, hl, hu, ih, beq_iff_eq]
        · have hb : (st.remoteUrl == "") = false := beq_eq_false_iff_ne.mpr hu
          simp +decide [serve_data_hybrid, List.find?, hl, hu, hb, ih]
      · have hbl : (s == "local") = false := beq_eq_false_iff_ne.mpr hl
        have hbr : (s == "remote") = false := beq_eq_false_iff_ne.mpr hr
        simp [serve_data_hybrid, List.find?, hl, hr, hbl, hbr, ih]

/-- C8: in `hybrid` mode `serve_data` returns the answer of the first source
in `fallback_priority` that can produce one (`local` only when the file exists
locally; `remote`, when a remote URL is configured, always — an unconditional
302 redirect issued without consulting the remote, so nothing listed after
`remote` is ever consulted), and the 404 JSON error exactly when no listed
source produced a response. -/
theorem serve_data_hybrid_spec (st : ServerState) (filepath : String)
    (hmode : st.mode = "hybrid") :
    (serve_data st filepath =
      match hybrid_first_responder st filepath with
      | some s =>
        if s = "local" then
          DataResponse.fileResponse (serve_local_file (st.dataDir ++ "/" ++ filepath))
        else DataResponse.redirect 302 (urljoin_rel (st.remoteUrl ++ "/") filepath)
      | none => DataResponse.jsonError 404 "File not found in any configured source") ∧
    (st.remoteUrl ≠ "" → ∀ rest,
      serve_data_hybrid st filepath ("remote" :: rest) =
        DataResponse.redirect 302 (urljoin_rel (st.remoteUrl ++ "/") filepath)) := by
  constructor
  · have hs : serve_data st filepath = serve_data_hybrid st filepath st.fallbackPriority := by
      simp [serve_data, hmode]
    rw [hs, serve_data_hybrid_find, hybrid_first_responder]
  · intro hu rest
    simp [serve_data_hybrid, hu]

/-- Witness for C8: a local hit is served locally, a local miss falls through
to the unconditional remote redirect, and with no remote URL the walk ends in
the 404 JSON error. -/
theorem serve_data_hybrid_spec_witness :
    serve_data hybridStateEx "a.geojson" =
      DataResponse.fileResponse
        { path := "data/a.geojson", mimeType := "application/geo+json", noCache := false } ∧
    serve_data hybridStateEx "b.geojson" =
      DataResponse.redirect 302 "https://r.example.org/d/b.geojson" ∧
    serve_data { hybridStateEx with remoteUrl := "" } "b.geojson" =
      DataResponse.jsonError 404 "File not found in any configured source" := by
  refine ⟨?_, ?_, ?_⟩
  · rw [(serve_data_hybrid_spec hybridStateEx "a.geojson" rfl).1]
    decide
  · rw [(serve_data_hybrid_spec hybridStateEx "b.geojson" rfl).1]
    decide
  · rw [(serve_data_hybrid_spec { hybridStateEx with remoteUrl := "" } "b.geojson" rfl).1]
    decide

/-- C1 counterexample: a source layer in EPSG:3347 clipped against an AOI in
EPSG:4326.  `clip_to_aoi` does not reproject the source into the AOI's CRS
before the clip: it reprojects the AOI into the source's CRS, the source
enters the clip untransformed, and the clip output stays in the source CRS
(EPSG:3347), not in the AOI's CRS (EPSG:4326). -/
theorem clip_to_aoi_source_not_reprojected_cex :
    clip_to_aoi { crs := some "EPSG:3347", geom := Geom.source 0 }
        { crs := some "EPSG:4326", geom := Geom.source 1 } 0 =
      Except.ok { crs := some "EPSG:3347",
                  geom := Geom.clipped (Geom.source 0)
                    (Geom.reprojected (Geom.source 1) (some "EPSG:4326") "EPSG:3347") } ∧
    Geom.clipped (Geom.source 0)
        (Geom.reprojected (Geom.source 1) (some "EPSG:4326") "EPSG:3347") ≠
      Geom.clipped (Geom.reprojected (Geom.source 0) (some "EPSG:3347") "EPSG:4326")
        (Geom.source 1) ∧
    (some "EPSG:3347" : Option String) ≠ some "EPSG:4326" := by
  refine ⟨rfl, ?_, by decide⟩
  intro h
  injection h with h1 h2
  exact Geom.noConfusion h1

/-- C1 (amended): in the shared clipping pipeline, whenever the source
dataset's CRS differs from the AOI's CRS (both defined), the **AOI** is
reprojected into the **source's** CRS before the mask/clip; the source enters
the clip untransformed and the clipped output stays in the source's CRS.
This holds for the vector clip (`clip_to_aoi`), the fuel-raster clip
(`clip_raster`, which converts the AOI unconditionally) and the DEM mosaic
clip inside `merge_and_clip_tiles` (whose final warp to EPSG:4326 happens
only after the clip). -/
theorem clip_pipeline_reprojects_aoi_into_source_crs :
    (∀ (gdf aoi : GDF) (b : Int) (cg ca : String), gdf.crs = some cg → aoi.crs = some ca →
      cg ≠ ca →
      clip_to_aoi gdf aoi b =
        Except.ok { crs := some cg,
                    geom := Geom.clipped gdf.geom
                      ((if 0 < b then fun g => Geom.buffered g b else id)
                        (Geom.reprojected aoi.geom (some ca) cg)) }) ∧
    (∀ (input : Raster) (aoi : GDF) (ci ca : String), input.crs = some ci → aoi.crs = some ca →
      clip_raster input aoi =
        Except.ok { crs := some ci,
                    grid := Geom.clipped input.grid
                      (Geom.reprojected aoi.geom (some ca) ci) }) ∧
    (∀ (t0 : Raster) (rest : List Raster) (aoi : GDF) (c0 ca : String),
      t0.crs = some c0 → aoi.crs = some ca → ∃ final,
      merge_and_clip_tiles (t0 :: rest) aoi = Except.ok final ∧
      (final.grid = Geom.clipped (Geom.merged ((t0 :: rest).map Raster.grid))
          (Geom.reprojected aoi.geom (some ca) c0) ∨
       final.grid = Geom.resampled
          (Geom.clipped (Geom.merged ((t0 :: rest).map Raster.grid))
            (Geom.reprojected aoi.geom (some ca) c0))
          c0 "EPSG:4326" Resampling.bilinear)) := by
  refine ⟨?_, ?_, ?_⟩
  · intro gdf aoi b cg ca hg ha hne
    rw [clip_to_aoi_eq gdf aoi b cg ca hg ha]
    simp [hne]
  · intro input aoi ci ca hi ha
    exact clip_raster_eq input aoi ci ca hi ha
  · intro t0 rest aoi c0 ca h0 ha
    by_cases hc : c0 = "EPSG:4326"
    · exact ⟨_, by rw [merge_and_clip_tiles_eq t0 rest aoi c0 ca h0 ha, if_pos hc],
        Or.inl rfl⟩
    · exact ⟨_, by rw [merge_and_clip_tiles_eq t0 rest aoi c0 ca h0 ha, if_neg hc],
        Or.inr rfl⟩

/-- Witness for C1 (amended): a buffered vector clip and a raster clip at
concrete inputs with differing CRSs. -/
theorem clip_pipeline_reprojects_aoi_into_source_crs_witness :
    clip_to_aoi { crs := some "EPSG:3347", geom := Geom.source 0 }
        { crs := some "EPSG:4326", geom := Geom.source 1 } 500 =
      Except.ok { crs := some "EPSG:3347",
                  geom := Geom.clipped (Geom.source 0)
                    (Geom.buffered
                      (Geom.reprojected (Geom.source 1) (some "EPSG:4326") "EPSG:3347")
                      500) } ∧
    clip_raster { crs := some "EPSG:3978", grid := Geom.source 2 }
        { crs := some "EPSG:4326", geom := Geom.source 1 } =
      Except.ok { crs := some "EPSG:3978",
                  grid := Geom.clipped (Geom.source 2)
                    (Geom.reprojected (Geom.source 1) (some "EPSG:4326") "EPSG:3978") } := by
  constructor
  · have h := clip_pipeline_reprojects_aoi_into_source_crs.1
      { crs := some "EPSG:3347", geom := Geom.source 0 }
      { crs := some "EPSG:4326", geom := Geom.source 1 } 500 "EPSG:3347" "EPSG:4326"
      rfl rfl (by decide)
    rw [h]
    rfl
  · exact clip_pipeline_reprojects_aoi_into_source_crs.2.1
      { crs := some "EPSG:3978", grid := Geom.source 2 }
      { crs := some "EPSG:4326", geom := Geom.source 1 } "EPSG:3978" "EPSG:4326" rfl rfl

/-- C2: every final web output of these pipelines is in EPSG:4326: the
fire-perimeter frame is reprojected before saving only when not already
there and saved unchanged otherwise; the clipped fuel raster is warped to
EPSG:4326 unless already there (in which case the clipped file itself is
moved to the output); the clipped DEM mosaic likewise. -/
theorem web_outputs_are_wgs84 :
    (∀ (T : CoordTransform) (filtered : FireGDF) (c : String), filtered.crs = some c →
      ∃ out, fire_main_save T filtered = Except.ok out ∧ out.crs = some "EPSG:4326" ∧
        (c = "EPSG:4326" → out = filtered)) ∧
    (∀ (input : Raster) (aoi : GDF) (ci ca : String), input.crs = some ci → aoi.crs = some ca →
      ∃ out, clip_fuel_pipeline input aoi = Except.ok out ∧ out.crs = some "EPSG:4326" ∧
        (ci = "EPSG:4326" →
          out = { crs := some ci,
                  grid := Geom.clipped input.grid
                    (Geom.reprojected aoi.geom (some ca) ci) })) ∧
    (∀ (t0 : Raster) (rest : List Raster) (aoi : GDF) (c0 ca : String),
      t0.crs = some c0 → aoi.crs = some ca →
      ∃ out, merge_and_clip_tiles (t0 :: rest) aoi = Except.ok out ∧
        out.crs = some "EPSG:4326" ∧
        (c0 = "EPSG:4326" →
          out = { crs := some c0,
                  grid := Geom.clipped (Geom.merged ((t0 :: rest).map Raster.grid))
                            (Geom.reprojected aoi.geom (some ca) c0) })) := by
  refine ⟨?_, ?_, ?_⟩
  · intro T filtered c hc
    by_cases h4 : c = "EPSG:4326"
    · subst h4
      exact ⟨filtered, by simp [fire_main_save, hc], hc, fun _ => rfl⟩
    · refine ⟨{ crs := some "EPSG:4326",
                rows := filtered.rows.map fun r =>
                  { r with bounds := T filtered.crs "EPSG:4326" r.bounds } },
              ?_, rfl, ?_⟩
      · simp [fire_main_save, fire_to_crs, hc, h4]
      · intro hcc
        exact absurd hcc h4
  · intro input aoi ci ca hi ha
    rw [clip_fuel_pipeline_eq input aoi ci ca hi ha]
    by_cases hc : ci = "EPSG:4326"
    · subst hc
      exact ⟨_, by rw [if_pos rfl], rfl, fun _ => rfl⟩
    · exact ⟨_, by rw [if_neg hc], rfl, fun hcc => absurd hcc hc⟩
  · intro t0 rest aoi c0 ca h0 ha
    rw [merge_and_clip_tiles_eq t0 rest aoi c0 ca h0 ha]
    by_cases hc : c0 = "EPSG:4326"
    · subst hc
      exact ⟨_, by rw [if_pos rfl], rfl, fun _ => rfl⟩
    · exact ⟨_, by rw [if_neg hc], rfl, fun hcc => absurd hcc hc⟩

/-- Witness for C2: concrete outputs of the three pipelines all land in
EPSG:4326. -/
theorem web_outputs_are_wgs84_witness :
    (∃ out, fire_main_save (fun _ _ r => r) { crs := some "EPSG:4326", rows := [] } =
        Except.ok out ∧ out.crs = some "EPSG:4326") ∧
    (∃ out, clip_fuel_pipeline { crs := some "EPSG:3978", grid := Geom.source 0 }
        { crs := some "EPSG:4326", geom := Geom.source 1 } =
        Except.ok out ∧ out.crs = some "EPSG:4326") ∧
    (∃ out, merge_and_clip_tiles [{ crs := some "EPSG:3978", grid := Geom.source 2 }]
        { crs := some "EPSG:4326", geom := Geom.source 1 } =
        Except.ok out ∧ out.crs = some "EPSG:4326") := by
  refine ⟨?_, ?_, ?_⟩
  · obtain ⟨out, h1, h2, -⟩ := web_outputs_are_wgs84.1 (fun _ _ r => r)
      { crs := some "EPSG:4326", rows := [] } "EPSG:4326" rfl
    exact ⟨out, h1, h2⟩
  · obtain ⟨out, h1, h2, -⟩ := web_outputs_are_wgs84.2.1
      { crs := some "EPSG:3978", grid := Geom.source 0 }
      { crs := some "EPSG:4326", geom := Geom.source 1 } "EPSG:3978" "EPSG:4326" rfl rfl
    exact ⟨out, h1, h2⟩
  · obtain ⟨out, h1, h2, -⟩ := web_outputs_are_wgs84.2.2
      { crs := some "EPSG:3978", grid := Geom.source 2 } []
      { crs := some "EPSG:4326", geom := Geom.source 1 } "EPSG:3978" "EPSG:4326" rfl rfl
    exact ⟨out, h1, h2⟩

/-- C5 counterexample: the elevation workflow performs no download.
`download_cdem_tile` raises `NotImplementedError` on the very first sheet
`get_nts_tiles_for_aoi` lists, and `main` run with an empty raw-tile directory
exits without downloading, merging or clipping anything. -/
theorem cdem_no_download_cex :
    download_cdem_tile "031D" "data/raw/dem" =
      Except.error ("Automatic download of CDEM tiles not implemented due to file size.\n" ++
        "Please manually download tiles from: https://ftp.maps.canada.ca/pub/elevation/dem_mne/highresolution_hauteresolution/dtm_mnt/031/031d/\n" ++
        "Place .tif files in: data/raw/dem") ∧
    cdem_main [] { crs := some "EPSG:4326", geom := Geom.source 0 } = Except.ok none := by
  exact ⟨rfl, rfl⟩

/-- C5 (amended): the elevation workflow does not itself download CDEM tiles —
`download_cdem_tile` always raises `NotImplementedError`, and `main` only
scans for manually downloaded tiles, exiting without processing when none are
found.  Given downloaded tiles it performs, in order: merge of the tiles,
clip of the mosaic to the AOI, and — exactly when the mosaic's CRS is not
already EPSG:4326 — bilinear resampling/reprojection of the clipped result
into EPSG:4326. -/
theorem cdem_workflow_spec :
    (∀ nts dir, ∃ e, download_cdem_tile nts dir = Except.error e) ∧
    (∀ aoi, cdem_main [] aoi = Except.ok none) ∧
    (∀ (t0 : Raster) (rest : List Raster) (aoi : GDF) (c0 ca : String),
      t0.crs = some c0 → aoi.crs = some ca →
      cdem_main (t0 :: rest) aoi =
        Except.ok (some (if c0 = "EPSG:4326" then
          { crs := some c0,
            grid := Geom.clipped (Geom.merged ((t0 :: rest).map Raster.grid))
                      (Geom.reprojected aoi.geom (some ca) c0) }
        else
          { crs := some "EPSG:4326",
            grid := Geom.resampled
              (Geom.clipped (Geom.merged ((t0 :: rest).map Raster.grid))
                (Geom.reprojected aoi.geom (some ca) c0))
              c0 "EPSG:4326" Resampling.bilinear }))) := by
  refine ⟨?_, ?_, ?_⟩
  · intro nts dir
    exact ⟨_, rfl⟩
  · intro aoi
    rfl
  · intro t0 rest aoi c0 ca h0 ha
    have h := merge_and_clip_tiles_eq t0 rest aoi c0 ca h0 ha
    simp [cdem_main, h, Except.map]

/-- Witness for C5 (amended): the first hardcoded sheet raises; an empty tile
directory exits without processing; one concrete non-WGS84 tile goes through
merge → clip → bilinear warp into EPSG:4326. -/
theorem cdem_workflow_spec_witness :
    (∃ e, download_cdem_tile "031D" "data/raw/dem" = Except.error e) ∧
    cdem_main [] { crs := some "EPSG:4326", geom := Geom.source 0 } = Except.ok none ∧
    cdem_main [{ crs := some "EPSG:3978", grid := Geom.source 2 }]
        { crs := some "EPSG:4326", geom := Geom.source 1 } =
      Except.ok (some { crs := some "EPSG:4326",
                        grid := Geom.resampled
                          (Geom.clipped (Geom.merged [Geom.source 2])
                            (Geom.reprojected (Geom.source 1) (some "EPSG:4326") "EPSG:3978"))
                          "EPSG:3978" "EPSG:4326" Resampling.bilinear }) := by
  refine ⟨cdem_workflow_spec.1 "031D" "data/raw/dem",
    cdem_workflow_spec.2.1 { crs := some "EPSG:4326", geom := Geom.source 0 }, ?_⟩
  have h := cdem_workflow_spec.2.2 { crs := some "EPSG:3978", grid := Geom.source 2 } []
    { crs := some "EPSG:4326", geom := Geom.source 1 } "EPSG:3978" "EPSG:4326" rfl rfl
  rw [h]
  rfl

/-- The pandas year mask `(years >= start) & (years <= end)` — where a year
that could not be extracted compares false — agrees with the predicate
"the extracted year exists and lies in the inclusive range". -/
theorem year_mask_eq (yf : String) (sy ey : Int) (r : FireRec) :
    (optGE (extract_year (getAttr r yf)) sy && optLE (extract_year (getAttr r yf)) ey) =
      (match extract_year (getAttr r yf) with
       | some y => decide (sy ≤ y ∧ y ≤ ey)
       | none => false) := by
  cases h : extract_year (getAttr r yf) with
  | none => simp [optGE, optLE, h]
  | some y =>
    by_cases h1 : sy ≤ y <;> by_cases h2 : y ≤ ey <;> simp [optGE, optLE, h, h1, h2]

/-- `filter_fires` on a frame already in EPSG:4326, fully characterized. -/
theorem filter_fires_eq_wgs84 (T : CoordTransform) (g : FireGDF)
    (bbox : BBoxDict) (sy ey : Int) (hg : g.crs = some "EPSG:4326") :
    (∀ yf, filter_fires T g (some yf) bbox sy ey =
      Except.ok { crs := some "EPSG:4326",
                  rows := ((g.rows.filter (cx_keep bbox)).filter fun r =>
                      optGE (extract_year (getAttr r yf)) sy &&
                      optLE (extract_year (getAttr r yf)) ey).map (withYearAttr yf) }) ∧
    filter_fires T g none bbox sy ey =
      Except.ok { crs := some "EPSG:4326", rows := g.rows.filter (cx_keep bbox) } := by
  constructor
  · intro yf
    by_cases he : (g.rows.filter (cx_keep bbox)).isEmpty
    · have hnil : g.rows.filter (cx_keep bbox) = [] := List.isEmpty_iff.mp he
      simp [filter_fires, hg, hnil, Bind.bind, Except.bind]
    · simp [filter_fires, hg, he, Bind.bind, Except.bind]
  · by_cases he : (g.rows.filter (cx_keep bbox)).isEmpty
    · have hnil : g.rows.filter (cx_keep bbox) = [] := List.isEmpty_iff.mp he
      simp [filter_fires, hg, hnil, Bind.bind, Except.bind]
    · simp [filter_fires, hg, he, Bind.bind, Except.bind]

/-- `filter_fires` on a frame in some other CRS first reprojects every record
and then behaves like the EPSG:4326 case. -/
theorem filter_fires_reproj_step (T : CoordTransform) (g : FireGDF) (yfo : Option String)
    (bbox : BBoxDict) (sy ey : Int) (c : String) (hc : g.crs = some c)
    (hne : c ≠ "EPSG:4326") :
    filter_fires T g yfo bbox sy ey =
      filter_fires T
        { crs := some "EPSG:4326",
          rows := g.rows.map fun r => { r with bounds := T (some c) "EPSG:4326" r.bounds } }
        yfo bbox sy ey := by
  simp [filter_fires, fire_to_crs, hc, hne, Bind.bind, Except.bind]

/-- C10: with a year field found, `filter_fires` keeps exactly the
bounding-box-filtered records whose extracted year `y` satisfies
`start_year ≤ y ≤ end_year` (records whose year cannot be extracted — missing
values, numbers outside 1900–2100, strings without an embedded 4-digit year
starting 19 or 20 — compare false in the pandas mask and are excluded, and the
kept records carry the extracted `YEAR` column); with no year field found, the
bounding-box filter result is returned with no time filtering. -/
theorem filter_fires_year_selection (T : CoordTransform) (gdf : FireGDF) (c : String)
    (bbox : BBoxDict) (sy ey : Int) (hc : gdf.crs = some c) :
    ∃ base : List FireRec,
      base = (if c = "EPSG:4326" then gdf.rows
              else gdf.rows.map fun r =>
                { r with bounds := T (some c) "EPSG:4326" r.bounds }).filter (cx_keep bbox) ∧
      (∀ yf, filter_fires T gdf (some yf) bbox sy ey =
        Except.ok { crs := some "EPSG:4326",
                    rows := (base.filter fun r =>
                        match extract_year (getAttr r yf) with
                        | some y => decide (sy ≤ y ∧ y ≤ ey)
                        | none => false).map (withYearAttr yf) }) ∧
      filter_fires T gdf none bbox sy ey =
        Except.ok { crs := some "EPSG:4326", rows := base } := by
  have hmask : ∀ yf, (fun r => optGE (extract_year (getAttr r yf)) sy &&
      optLE (extract_year (getAttr r yf)) ey) =
      (fun r => match extract_year (getAttr r yf) with
       | some y => decide (sy ≤ y ∧ y ≤ ey)
       | none => false) := fun yf => funext (year_mask_eq yf sy ey)
  by_cases h4 : c = "EPSG:4326"
  · subst h4
    refine ⟨gdf.rows.filter (cx_keep bbox), by simp, ?_, ?_⟩
    · intro yf
      rw [(filter_fires_eq_wgs84 T gdf bbox sy ey hc).1 yf]
      rw [hmask yf]
    · exact (filter_fires_eq_wgs84 T gdf bbox sy ey hc).2
  · refine ⟨(gdf.rows.map fun r =>
        { r with bounds := T (some c) "EPSG:4326" r.bounds }).filter (cx_keep bbox),
      by simp [h4], ?_, ?_⟩
    · intro yf
      rw [filter_fires_reproj_step T gdf (some yf) bbox sy ey c hc h4,
        (filter_fires_eq_wgs84 T _ bbox sy ey rfl).1 yf]
      rw [hmask yf]
    · rw [filter_fires_reproj_step T gdf none bbox sy ey c hc h4,
        (filter_fires_eq_wgs84 T _ bbox sy ey rfl).2]

/-- Witness for C10: of the two in-box records only the 2015 fire survives the
2010–2024 filter (and carries the extracted `YEAR`); with no year field both
in-box records are returned. -/
theorem filter_fires_year_selection_witness :
    filter_fires (fun _ _ r => r) fireEx (some "YEAR") bboxEx 2010 2024 =
      Except.ok { crs := some "EPSG:4326",
                  rows := [
                    { bounds := { minx := -79, miny := 44, maxx := -78, maxy := 45 },
                      attrs := [("YEAR", FireVal.num 2015),
                                ("YEAR", FireVal.str "2015-06-01")] }] } ∧
    filter_fires (fun _ _ r => r) fireEx none bboxEx 2010 2024 =
      Except.ok { crs := some "EPSG:4326",
                  rows := [
                    { bounds := { minx := -79, miny := 44, maxx := -78, maxy := 45 },
                      attrs := [("YEAR", FireVal.str "2015-06-01")] },
                    { bounds := { minx := -79, miny := 44, maxx := -78, maxy := 45 },
                      attrs := [("YEAR", FireVal.num 1800)] }] } := by
  obtain ⟨base, hb, hyf, hnone⟩ :=
    filter_fires_year_selection (fun _ _ r => r) fireEx "EPSG:4326" bboxEx 2010 2024 rfl
  constructor
  · rw [hyf "YEAR", hb]
    rfl
  · rw [hnone, hb]
    rfl
